import Mathlib

/-!
Verification development for the script src/teleportacion_qiskit.py.

The script is a linear Python program that builds three quantum-teleportation
circuits with Qiskit, runs two of them on a local ideal simulator, submits the
third to a remote IBM backend, and plots the results.  Two complementary
shallow embeddings are used:

* a statement-level model of the whole script (`PyAtom`, `PyStmt`, `script`)
  that records, in source order, every top-level statement of the file with
  the structure relevant to the claims: exception handling, loops, run/submit
  calls with their shot counts, result retrieval, plotting and file writes;

* an instruction-level model of the circuits (`Instr`, `qc1`, `qc2`) together
  with a real-vector semantics of the gates actually used, from which the
  measurement statistics of the two simulated circuits are computed exactly.

Line numbers in the comments refer to src/teleportacion_qiskit.py.
-/

namespace Teleport

/-! ## Statement-level model of the script -/

/-- Atomic (non-compound) top-level Python statements of the script.
Constructors that the source never uses (`pltSavefig`, `jobCancel`,
`sleepCall`) are included so that their absence can be stated. -/
inductive PyAtom where
  | importLib
  | serviceConnect
  | assignConst (name : String)
  | printMsg
  | newCircuit (name : String) (nq : Nat)
  | newCreg (name : String) (bits : Nat)
  | addReg (circ creg : String)
  | gateOp (circ : String)
  | samplerLocal (name : String) (shots : Nat)
  | runAndResult (sampler : String)
  | assignResultData (name : String)
  | pltFigure
  | histogramPlot (file : Option String)
  | pltTitle
  | pltTightLayout
  | pltShow
  | pltSavefig (file : String)
  | leastBusy
  | transpileSetup
  | transpileRun
  | samplerHardware (name : String)
  | submitJob (shots : Nat)
  | printJobId
  | resultWait (job : String) (timeoutArg : Option Nat)
  | jobCancel (job : String)
  | sleepCall
  | drawToFile (circ file : String)
  deriving DecidableEq

/-- Top-level Python statements: either an atomic statement or a compound
statement (try/except, loops).  The source contains no compound statements;
the compound constructors exist so that their absence is a statable fact. -/
inductive PyStmt where
  | atom (a : PyAtom)
  | tryExcept (body handler : List PyAtom)
  | whileLoop (body : List PyAtom)
  | forLoop (body : List PyAtom)
  deriving DecidableEq

open PyAtom in
/-- Top-level statements of the configuration section, lines 25-48. -/
def headerStmts : List PyStmt := [
  .atom importLib,                               -- 25 numpy
  .atom importLib,                               -- 26 qiskit
  .atom importLib,                               -- 27 qiskit_ibm_runtime
  .atom importLib,                               -- 28 qiskit_aer.primitives
  .atom importLib,                               -- 29 preset_passmanagers
  .atom importLib,                               -- 30 matplotlib
  .atom importLib,                               -- 31 qiskit.visualization
  .atom serviceConnect,                          -- 38 service = QiskitRuntimeService()
  .atom (assignConst "theta"),                   -- 44
  .atom (assignConst "initial_state_vector"),    -- 45
  .atom (assignConst "SHOTS")]                   -- 48

open PyAtom in
/-- Top-level statements of the first simulation, lines 54-137. -/
def sim1Stmts : List PyStmt := [
  .atom printMsg,                                -- 54
  .atom (newCircuit "qc1" 3),                    -- 61 qc1 = QuantumCircuit(3)
  .atom (newCreg "alice_meas" 2),                -- 66
  .atom (newCreg "bob_verif" 1),                 -- 67
  .atom (addReg "qc1" "alice_meas"),             -- 68
  .atom (addReg "qc1" "bob_verif"),              -- 69
  .atom (gateOp "qc1"),                          -- 73 initialize
  .atom (gateOp "qc1"),                          -- 74 barrier
  .atom (gateOp "qc1"),                          -- 79 h(1)
  .atom (gateOp "qc1"),                          -- 80 cx(1,2)
  .atom (gateOp "qc1"),                          -- 81 barrier
  .atom (gateOp "qc1"),                          -- 86 cx(0,1)
  .atom (gateOp "qc1"),                          -- 87 h(0)
  .atom (gateOp "qc1"),                          -- 88 barrier
  .atom (gateOp "qc1"),                          -- 92 measure([0,1], c_alice)
  .atom (gateOp "qc1"),                          -- 93 barrier
  .atom (gateOp "qc1"),                          -- 108-109 with if_test: x(2)
  .atom (gateOp "qc1"),                          -- 110-111 with if_test: z(2)
  .atom (gateOp "qc1"),                          -- 117 ry(-theta, 2)
  .atom (gateOp "qc1"),                          -- 120 measure(2, c_bob_verif)
  .atom printMsg,                                -- 124
  .atom (samplerLocal "sim1_sampler" 4096),      -- 125 AerSampler(run_options shots 4096)
  .atom (runAndResult "sim1_sampler"),           -- 126 .run([qc1]).result()
  .atom (assignResultData "counts1"),            -- 127
  .atom printMsg,                                -- 128
  .atom (assignResultData "counts1_int"),        -- 132
  .atom pltFigure,                               -- 133
  .atom (histogramPlot none),                    -- 134 plot_histogram, no filename
  .atom pltTitle,                                -- 135
  .atom pltTightLayout,                          -- 136
  .atom pltShow]                                 -- 137

open PyAtom in
/-- Top-level statements of the second simulation, lines 142-189. -/
def sim2Stmts : List PyStmt := [
  .atom printMsg,                                -- 142
  .atom (newCircuit "qc2" 3),                    -- 147 qc2 = QuantumCircuit(3)
  .atom (newCreg "alice_meas_2" 2),              -- 148
  .atom (newCreg "bob_verif_2" 1),               -- 149
  .atom (addReg "qc2" "alice_meas_2"),           -- 150
  .atom (addReg "qc2" "bob_verif_2"),            -- 151
  .atom (gateOp "qc2"),                          -- 154 ry(theta, 0)
  .atom (gateOp "qc2"),                          -- 155 barrier
  .atom (gateOp "qc2"),                          -- 156 h(1)
  .atom (gateOp "qc2"),                          -- 157 cx(1,2)
  .atom (gateOp "qc2"),                          -- 158 barrier
  .atom (gateOp "qc2"),                          -- 159 cx(0,1)
  .atom (gateOp "qc2"),                          -- 160 h(0)
  .atom (gateOp "qc2"),                          -- 161 barrier
  .atom (gateOp "qc2"),                          -- 162 measure([0,1], c_alice_2)
  .atom (gateOp "qc2"),                          -- 163 barrier
  .atom (gateOp "qc2"),                          -- 171 ry(-theta, 2)
  .atom (gateOp "qc2"),                          -- 172 measure(2, c_bob_2)
  .atom (samplerLocal "sim2_sampler" 4096),      -- 178
  .atom (runAndResult "sim2_sampler"),           -- 179
  .atom (assignResultData "counts2"),            -- 180
  .atom printMsg,                                -- 181
  .atom (assignResultData "counts2_int"),        -- 184
  .atom pltFigure,                               -- 185
  .atom (histogramPlot none),                    -- 186
  .atom pltTitle,                                -- 187
  .atom pltTightLayout,                          -- 188
  .atom pltShow]                                 -- 189

open PyAtom in
/-- Top-level statements of the hardware section, lines 194-247.  Note that
no statement of this section is wrapped in any compound statement: the
section runs at top level. -/
def sim3Stmts : List PyStmt := [
  .atom printMsg,                                -- 194
  .atom leastBusy,                               -- 202 service.least_busy(...)
  .atom printMsg,                                -- 203
  .atom transpileSetup,                          -- 210 generate_preset_pass_manager
  .atom transpileRun,                            -- 211 tp_qc1 = pm.run(qc1)
  .atom (samplerHardware "sampler_real"),        -- 215 Sampler(mode=backend_real)
  .atom printMsg,                                -- 217
  .atom (submitJob 4096),                        -- 221 sampler_real.run([tp_qc1], shots 4096)
  .atom printJobId,                              -- 222 print of job3.job_id()
  .atom printMsg,                                -- 223
  .atom (resultWait "job3" none),                -- 225 result3 = job3.result()
  .atom printMsg,                                -- 226
  .atom (assignResultData "pub_result"),         -- 231
  .atom printMsg,                                -- 232
  .atom (assignResultData "counts3"),            -- 233
  .atom printMsg,                                -- 234
  .atom (assignResultData "fidelidad"),          -- 239
  .atom printMsg,                                -- 240
  .atom pltFigure,                               -- 243
  .atom (histogramPlot none),                    -- 244
  .atom pltTitle,                                -- 245
  .atom pltTightLayout,                          -- 246
  .atom pltShow]                                 -- 247

open PyAtom in
/-- Top-level statements of the circuit-image section, lines 249-261. -/
def drawStmts : List PyStmt := [
  .atom (drawToFile "qc1" "circuito_sim1.png"),  -- 254
  .atom (drawToFile "qc2" "circuito_sim2.png"),  -- 257
  .atom (drawToFile "tp_qc1" "circuito_sim3.png")] -- 261

/-- The full sequence of top-level statements of src/teleportacion_qiskit.py,
in source order. -/
def script : List PyStmt :=
  headerStmts ++ sim1Stmts ++ sim2Stmts ++ sim3Stmts ++ drawStmts

/-- Whether a statement is a try/except block. -/
def PyStmt.isTry : PyStmt → Bool
  | .tryExcept _ _ => true
  | _ => false

/-- Whether a statement is a loop. -/
def PyStmt.isLoop : PyStmt → Bool
  | .whileLoop _ => true
  | .forLoop _ => true
  | _ => false

/-- Whether a statement is the hardware job submission (line 221). -/
def PyStmt.isSubmit : PyStmt → Bool
  | .atom (.submitJob _) => true
  | _ => false

/-- Whether a statement is the blocking result retrieval on the hardware job
(line 225). -/
def PyStmt.isHardwareResult : PyStmt → Bool
  | .atom (.resultWait _ _) => true
  | _ => false

/-- Whether a statement cancels a job.  The source never does. -/
def PyStmt.isCancel : PyStmt → Bool
  | .atom (.jobCancel _) => true
  | _ => false

/-- Whether a statement only prints to the console (possibly querying job
metadata such as the job id). -/
def PyStmt.isPrintLike : PyStmt → Bool
  | .atom .printMsg => true
  | .atom .printJobId => true
  | _ => false

/-- Whether a statement displays a figure window. -/
def PyStmt.isShow : PyStmt → Bool
  | .atom .pltShow => true
  | _ => false

/-- Whether a statement draws a histogram. -/
def PyStmt.isHistogramPlot : PyStmt → Bool
  | .atom (.histogramPlot _) => true
  | _ => false

/-- The image file, if any, that a statement writes to the working directory.
Circuit diagrams are written by draw with a filename (lines 254, 257, 261);
a histogram would be written by passing a filename to plot_histogram or by
calling plt.savefig, neither of which the source does. -/
def PyStmt.writesFile : PyStmt → Option String
  | .atom (.drawToFile _ f) => some f
  | .atom (.histogramPlot (some f)) => some f
  | .atom (.pltSavefig f) => some f
  | _ => none

/-- Whether a statement writes a histogram image file. -/
def PyStmt.writesHistogramFile : PyStmt → Bool
  | .atom (.histogramPlot (some _)) => true
  | .atom (.pltSavefig _) => true
  | _ => false

/-- The shot count of a statement that starts an experiment execution: the
two local sampler constructions (lines 125, 178, run_options) and the
hardware submission (line 221, keyword shots). -/
def PyStmt.runShots : PyStmt → Option Nat
  | .atom (.samplerLocal _ n) => some n
  | .atom (.submitJob n) => some n
  | _ => none

/-- Statements of the script strictly after the hardware job submission. -/
def afterSubmit : List PyStmt :=
  (script.dropWhile (fun s => !s.isSubmit)).drop 1

/-- Statements strictly between the hardware job submission (line 221) and
the blocking result retrieval (line 225). -/
def betweenSubmitAndResult : List PyStmt :=
  afterSubmit.takeWhile (fun s => !s.isHardwareResult)

/-- Shot-count constant SHOTS, line 48. -/
def SHOTS : Nat := 4096

/-- Truncation of a real number to an integer, as applied by the Python
builtin int() to a float: rounding toward zero. -/
noncomputable def pyInt (x : ℝ) : ℤ := if x < 0 then ⌈x⌉ else ⌊x⌋

/-- Conversion of one binary-outcome probability to an integer histogram
count, as in the dictionary comprehensions of lines 132 and 184:
int(v * SHOTS). -/
noncomputable def countsInt (v : ℝ) : ℤ := pyInt (v * (SHOTS : ℝ))

/-! ## Instruction-level model of the circuits -/

/-- Rotation angle theta = pi / 3, line 44. -/
noncomputable def theta : ℝ := Real.pi / 3

/-- Amplitude pair of the state to teleport, line 45:
initial_state_vector = [cos(theta / 2), sin(theta / 2)]. -/
noncomputable def initial_state_vector : List ℝ :=
  [Real.cos (theta / 2), Real.sin (theta / 2)]

/-- Circuit instructions used by the script.  The `cond` constructor models
the with qc.if_test((creg[bit], val)) blocks of lines 108-111, whose body is
a single gate. -/
inductive Instr where
  | initGate (v : List ℝ) (q : Nat)
  | h (q : Nat)
  | cx (ctrl tgt : Nat)
  | x (q : Nat)
  | z (q : Nat)
  | ry (angle : ℝ) (q : Nat)
  | measure (qs : List Nat) (creg : String)
  | barrier
  | cond (creg : String) (bit val : Nat) (body : Instr)

/-- Whether an instruction is a barrier. -/
def Instr.isBarrier : Instr → Bool
  | .barrier => true
  | _ => false

/-- Whether an instruction is classically controlled (an if_test block). -/
def Instr.isCond : Instr → Bool
  | .cond _ _ _ _ => true
  | _ => false

/-- A quantum circuit as the script builds it: a qubit count, named classical
registers with their widths, and the instruction sequence. -/
structure Circuit where
  numQubits : Nat
  cregs : List (String × Nat)
  instrs : List Instr

/-- Instruction sequence of the ideal circuit qc1, lines 73-120, in source
order. -/
noncomputable def qc1Instrs : List Instr := [
  .initGate initial_state_vector 0,     -- 73 qc1.initialize(initial_state_vector, 0)
  .barrier,                             -- 74
  .h 1,                                 -- 79
  .cx 1 2,                              -- 80
  .barrier,                             -- 81
  .cx 0 1,                              -- 86
  .h 0,                                 -- 87
  .barrier,                             -- 88
  .measure [0, 1] "alice_meas",         -- 92
  .barrier,                             -- 93
  .cond "alice_meas" 1 1 (.x 2),        -- 108-109
  .cond "alice_meas" 0 1 (.z 2),        -- 110-111
  .ry (-theta) 2,                       -- 117
  .measure [2] "bob_verif"]             -- 120

/-- The ideal circuit qc1: QuantumCircuit(3) (line 61) with registers
alice_meas (2 bits) and bob_verif (1 bit) (lines 66-69) and the instructions
of lines 73-120. -/
noncomputable def qc1 : Circuit :=
  { numQubits := 3
    cregs := [("alice_meas", 2), ("bob_verif", 1)]
    instrs := qc1Instrs }

/-- Instruction sequence of the uncorrected circuit qc2, lines 154-172, in
source order. -/
noncomputable def qc2Instrs : List Instr := [
  .ry theta 0,                          -- 154 qc2.ry(theta, 0)
  .barrier,                             -- 155
  .h 1,                                 -- 156
  .cx 1 2,                              -- 157
  .barrier,                             -- 158
  .cx 0 1,                              -- 159
  .h 0,                                 -- 160
  .barrier,                             -- 161
  .measure [0, 1] "alice_meas_2",       -- 162
  .barrier,                             -- 163
  .ry (-theta) 2,                       -- 171
  .measure [2] "bob_verif_2"]           -- 172

/-- The uncorrected circuit qc2: QuantumCircuit(3) (line 147) with registers
alice_meas_2 (2 bits) and bob_verif_2 (1 bit) (lines 148-151) and the
instructions of lines 154-172. -/
noncomputable def qc2 : Circuit :=
  { numQubits := 3
    cregs := [("alice_meas_2", 2), ("bob_verif_2", 1)]
    instrs := qc2Instrs }

/-- A physical IBM backend as selected at line 202 by
service.least_busy(simulator=False, operational=True, min_num_qubits=3):
the only attribute the claims depend on is its qubit count, constrained to
be at least 3. -/
structure Backend where
  numQubits : Nat

/-- Modelled from the Qiskit transpiler semantics of lines 210-211:
generate_preset_pass_manager(backend=b, optimization_level=1).run(qc) lays
the logical circuit out on the physical qubits of the backend and pads it
with ancillas to the full device width, so the transpiled circuit tp_qc1 has
exactly b.num_qubits qubits (not the logical circuit's 3, unless the device
itself has 3 qubits). -/
def tpQc1NumQubits (b : Backend) : Nat := b.numQubits

/-! ## State-vector semantics of the gates used by the script

Amplitudes are real throughout: the state prepared at line 45 is real and
every gate the script applies (H, CX, X, Z, Ry) has a real matrix.  A state
of the 3-qubit register is a real amplitude for each assignment of the three
qubits q0, q1, q2, written as a function of the three basis bits. -/

/-- Real state vector of the 3-qubit register: amplitude of the basis state
with q0 = a, q1 = b, q2 = c. -/
def QState := Bool → Bool → Bool → ℝ

/-- Hadamard gate on a single-qubit amplitude pair:
sends amplitudes (v0, v1) to ((v0 + v1), (v0 - v1)) / sqrt 2. -/
noncomputable def Hgate (v : Bool → ℝ) : Bool → ℝ :=
  fun b => (v false + (if b then -(v true) else v true)) / Real.sqrt 2

/-- Pauli X gate on a single-qubit amplitude pair. -/
def Xgate (v : Bool → ℝ) : Bool → ℝ := fun b => v (!b)

/-- Pauli Z gate on a single-qubit amplitude pair. -/
def Zgate (v : Bool → ℝ) : Bool → ℝ :=
  fun b => if b then -(v true) else v false

/-- Rotation Ry(angle) on a single-qubit amplitude pair, with the standard
matrix rows (cos(angle/2), -sin(angle/2)) and (sin(angle/2), cos(angle/2)). -/
noncomputable def RyGate (angle : ℝ) (v : Bool → ℝ) : Bool → ℝ :=
  fun b =>
    if b then Real.sin (angle / 2) * v false + Real.cos (angle / 2) * v true
    else Real.cos (angle / 2) * v false - Real.sin (angle / 2) * v true

/-- Application of a single-qubit operator to qubit 0 of the register. -/
def on0 (g : (Bool → ℝ) → Bool → ℝ) (ψ : QState) : QState :=
  fun a b c => g (fun a2 => ψ a2 b c) a

/-- Application of a single-qubit operator to qubit 1 of the register. -/
def on1 (g : (Bool → ℝ) → Bool → ℝ) (ψ : QState) : QState :=
  fun a b c => g (fun b2 => ψ a b2 c) b

/-- Application of a single-qubit operator to qubit 2 of the register. -/
def on2 (g : (Bool → ℝ) → Bool → ℝ) (ψ : QState) : QState :=
  fun a b c => g (fun c2 => ψ a b c2) c

/-- CX with control qubit 0 and target qubit 1: basis map
(a, b, c) to (a, b xor a, c), hence this action on amplitudes. -/
def cx01 (ψ : QState) : QState := fun a b c => ψ a (Bool.xor b a) c

/-- CX with control qubit 1 and target qubit 2: basis map
(a, b, c) to (a, b, c xor b). -/
def cx12 (ψ : QState) : QState := fun a b c => ψ a b (Bool.xor c b)

/-- The all-zero basis state of the fresh 3-qubit circuit. -/
noncomputable def psi000 : QState :=
  fun a b c => if a then 0 else if b then 0 else if c then 0 else 1

/-- Semantics of the unitary instructions the script applies, on the 3-qubit
state.  The initGate case models qiskit initialize(v, q) as applied at
line 73: on a state whose qubit 0 is in the basis state zero, it installs the
amplitude pair v on qubit 0.  Barriers and the cases the script never reaches
act as the identity. -/
noncomputable def applyInstr : Instr → QState → QState
  | .h 0, ψ => on0 Hgate ψ
  | .h 1, ψ => on1 Hgate ψ
  | .h 2, ψ => on2 Hgate ψ
  | .cx 0 1, ψ => cx01 ψ
  | .cx 1 2, ψ => cx12 ψ
  | .x 2, ψ => on2 Xgate ψ
  | .z 2, ψ => on2 Zgate ψ
  | .ry angle 0, ψ => on0 (RyGate angle) ψ
  | .ry angle 2, ψ => on2 (RyGate angle) ψ
  | .initGate v 0, ψ => fun a b c => (v.getD (if a then 1 else 0) 0) * ψ false b c
  | _, ψ => ψ

/-- State reached by folding a list of unitary instructions over a state. -/
noncomputable def runInstrs (l : List Instr) (ψ : QState) : QState :=
  l.foldl (fun φ i => applyInstr i φ) ψ

/-- State of qc1 reached at line 92, just before Alice's measurement: the
first 8 instructions of qc1 (through the H on qubit 0 and its barrier)
applied to the fresh all-zero state. -/
noncomputable def qc1Mid : QState := runInstrs (qc1Instrs.take 8) psi000

/-- State of qc2 reached at line 162, just before Alice's measurement. -/
noncomputable def qc2Mid : QState := runInstrs (qc2Instrs.take 8) psi000

/-- Classical correction of lines 108-111 applied to the amplitude pair of
Bob's qubit in the measurement branch where c_alice[0] = a0 and
c_alice[1] = a1: first X when c_alice[1] is 1 (lines 108-109), then Z when
c_alice[0] is 1 (lines 110-111).  Measuring qubits 0 and 1 at line 92 stores
the outcome of q0 in c_alice[0] and the outcome of q1 in c_alice[1]. -/
noncomputable def qc1Corr (a0 a1 : Bool) (v : Bool → ℝ) : Bool → ℝ :=
  (if a0 then Zgate else id) ((if a1 then Xgate else id) v)

/-- Unnormalized amplitude pair of Bob's qubit in qc1 just before the final
measurement (line 120), in the branch where Alice measured q0 = a and
q1 = b: the post-measurement branch of qc1Mid, corrected per lines 108-111,
then rotated by Ry(-theta) (line 117). -/
noncomputable def qc1Bob (a b : Bool) : Bool → ℝ :=
  RyGate (-theta) (qc1Corr a b (fun c => qc1Mid a b c))

/-- Unnormalized amplitude pair of Bob's qubit in qc2 just before the final
measurement (line 172), in the branch where Alice measured q0 = a and
q1 = b: no correction is applied, only the Ry(-theta) of line 171. -/
noncomputable def qc2Bob (a b : Bool) : Bool → ℝ :=
  RyGate (-theta) (fun c => qc2Mid a b c)

/-- Probability that the verification register bob_verif of qc1 reads 0 on
the ideal simulator: by the Born rule, the squared amplitude of Bob's qubit
reading 0, summed over the four branches of Alice's measurement. -/
noncomputable def probQc1Verif0 : ℝ :=
  (qc1Bob false false false) ^ 2 + (qc1Bob false true false) ^ 2 +
    (qc1Bob true false false) ^ 2 + (qc1Bob true true false) ^ 2

/-- Probability that the verification register bob_verif_2 of qc2 reads 0 on
the ideal simulator. -/
noncomputable def probQc2Verif0 : ℝ :=
  (qc2Bob false false false) ^ 2 + (qc2Bob false true false) ^ 2 +
    (qc2Bob true false false) ^ 2 + (qc2Bob true true false) ^ 2

/-! ## Helper lemmas -/

/-- Dividing twice by sqrt 2 divides by 2. -/
theorem div_sqrt_two_twice (x : ℝ) : x / Real.sqrt 2 / Real.sqrt 2 = x / 2 := by
  rw [div_div, Real.mul_self_sqrt (by norm_num : (0 : ℝ) ≤ 2)]

/-- Unfolding of the unitary prefix of qc1 (lines 73-88): initialize, H on
qubit 1, CX 1 to 2, CX 0 to 1, H on qubit 0, with barriers acting as the
identity. -/
theorem qc1Mid_unfold :
    qc1Mid = on0 Hgate (cx01 (cx12 (on1 Hgate
      (fun a b c => (initial_state_vector.getD (if a then 1 else 0) 0) *
        psi000 false b c)))) := rfl

/-- Unfolding of the unitary prefix of qc2 (lines 154-161). -/
theorem qc2Mid_unfold :
    qc2Mid = on0 Hgate (cx01 (cx12 (on1 Hgate (on0 (RyGate theta) psi000)))) :=
  rfl

/-- State preparation of qc2 (ry(theta, 0), line 154) produces the same state
as the preparation of qc1 (initialize(initial_state_vector, 0), line 73). -/
theorem prep_eq :
    (fun a b c => (initial_state_vector.getD (if a then 1 else 0) 0) *
      psi000 false b c : QState) = on0 (RyGate theta) psi000 := by
  funext a b c
  cases a <;> cases b <;> cases c <;>
    simp [initial_state_vector, psi000, on0, RyGate]

/-- The two circuits reach the same state just before Alice's measurement. -/
theorem mid_eq : qc2Mid = qc1Mid := by
  rw [qc2Mid_unfold, qc1Mid_unfold, prep_eq]

/-- Closed form of the joint state just before Alice's measurement. -/
theorem qc1Mid_eq (a b c : Bool) :
    qc1Mid a b c =
      (if Bool.xor b c then
        (if a then -(Real.sin (theta / 2)) else Real.sin (theta / 2))
       else Real.cos (theta / 2)) / 2 := by
  rw [qc1Mid_unfold]
  cases a <;> cases b <;> cases c <;>
    simp [on0, on1, cx01, cx12, Hgate, psi000, initial_state_vector,
      Bool.xor, div_sqrt_two_twice, neg_div]

/-- In every branch of Alice's measurement, the corrected and rotated
amplitude of Bob's qubit reading 0 is 1/2. -/
theorem qc1Bob_val (a b : Bool) : qc1Bob a b false = 1 / 2 := by
  have hcs : Real.sin (theta / 2) ^ 2 + Real.cos (theta / 2) ^ 2 = 1 :=
    Real.sin_sq_add_cos_sq _
  cases a <;> cases b <;>
    · simp [qc1Bob, qc1Corr, RyGate, Xgate, Zgate, qc1Mid_eq, Bool.xor,
        neg_div, Real.cos_neg, Real.sin_neg]
      linear_combination hcs / 2

/-- Exact success probability of the ideal protocol. -/
theorem probQc1_val : probQc1Verif0 = 1 := by
  simp [probQc1Verif0, qc1Bob_val]
  norm_num

/-- Exact probability that the verification bit of the uncorrected protocol
reads 0: one half. -/
theorem probQc2_val : probQc2Verif0 = 1 / 2 := by
  have hcs : Real.sin (theta / 2) ^ 2 + Real.cos (theta / 2) ^ 2 = 1 :=
    Real.sin_sq_add_cos_sq _
  simp only [probQc2Verif0, qc2Bob, mid_eq]
  simp [RyGate, qc1Mid_eq, Bool.xor, neg_div, Real.cos_neg, Real.sin_neg]
  linear_combination (Real.sin (theta / 2) ^ 2 + Real.cos (theta / 2) ^ 2 + 1) / 2 * hcs

/-! ## Claims -/

/-- C1, counterexample: the claim asserts a try/except wrapper around the
cloud-hardware section; in fact no try/except statement exists anywhere in
the script. -/
theorem C1_counterexample : ¬ ∃ s ∈ script, s.isTry = true := by decide

/-- C1, amended: the script contains no try/except and no loop statement at
all; the cloud-hardware steps (backend selection, transpilation, submission,
result retrieval) all run as plain top-level statements, so an exception in
any of them (e.g. missing credentials) propagates and terminates the script;
in particular no exception handling exists elsewhere in the script either. -/
theorem C1_no_exception_handling :
    (script.filter PyStmt.isTry).length = 0 ∧
    (script.filter PyStmt.isLoop).length = 0 ∧
    PyStmt.atom PyAtom.leastBusy ∈ script ∧
    PyStmt.atom PyAtom.transpileRun ∈ script ∧
    PyStmt.atom (PyAtom.submitJob 4096) ∈ script ∧
    PyStmt.atom (PyAtom.resultWait "job3" none) ∈ script := by
  refine ⟨rfl, rfl, ?_, ?_, ?_, ?_⟩ <;> decide

/-- C2, counterexample: no statement of the script writes a histogram image
file: plot_histogram is never given a filename and plt.savefig is never
called, so the histogram figures are only displayed, never saved. -/
theorem C2_counterexample : ¬ ∃ s ∈ script, s.writesHistogramFile = true := by
  decide

/-- C2, amended: the image files written to the working directory are exactly
the three circuit diagrams circuito_sim1.png (qc1), circuito_sim2.png (qc2)
and circuito_sim3.png (tp_qc1); the three histograms are drawn and displayed
in figure windows but never written to files. -/
theorem C2_written_files :
    script.filterMap PyStmt.writesFile =
      ["circuito_sim1.png", "circuito_sim2.png", "circuito_sim3.png"] ∧
    (script.filter PyStmt.isHistogramPlot).length = 3 ∧
    (script.filter PyStmt.isShow).length = 3 ∧
    script.all (fun s => !s.writesHistogramFile) = true :=
  ⟨rfl, rfl, rfl, rfl⟩

/-- C3, counterexample: on a backend with 127 qubits (the typical size of the
IBM devices eligible at line 202, where any operational device with at least
3 qubits can be selected), the transpiled circuit has 127 qubits, not 3. -/
theorem C3_counterexample :
    3 ≤ (Backend.mk 127).numQubits ∧ tpQc1NumQubits (Backend.mk 127) ≠ 3 := by
  decide

/-- C3, amended: qc1 and qc2 each have exactly 3 qubits, while the transpiled
circuit tp_qc1 has as many qubits as the selected backend (at least 3, and
equal to 3 only when the device itself has exactly 3 qubits). -/
theorem C3_qubit_counts (b : Backend) (_hb : 3 ≤ b.numQubits) :
    qc1.numQubits = 3 ∧ qc2.numQubits = 3 ∧ tpQc1NumQubits b = b.numQubits :=
  ⟨rfl, rfl, rfl⟩

/-- C3, witness at a 127-qubit backend. -/
theorem C3_qubit_counts_witness :
    3 ≤ (Backend.mk 127).numQubits ∧
      (qc1.numQubits = 3 ∧ qc2.numQubits = 3 ∧
        tpQc1NumQubits (Backend.mk 127) = (Backend.mk 127).numQubits) :=
  ⟨by norm_num, C3_qubit_counts (Backend.mk 127) (by norm_num)⟩

/-- C4: stripped of barriers, qc1 applies exactly, in this order: state
preparation on qubit 0; H on qubit 1 and CX 1 to 2; CX 0 to 1 and H on
qubit 0; measurement of qubits 0 and 1 into the 2-bit register alice_meas;
conditional X on qubit 2 when classical bit 1 is 1, then conditional Z on
qubit 2 when classical bit 0 is 1; Ry(-theta) on qubit 2; and measurement of
qubit 2 into the 1-bit register bob_verif. -/
theorem C4_qc1_order :
    qc1.instrs.filter (fun i => !i.isBarrier) =
      [Instr.initGate initial_state_vector 0, Instr.h 1, Instr.cx 1 2,
       Instr.cx 0 1, Instr.h 0, Instr.measure [0, 1] "alice_meas",
       Instr.cond "alice_meas" 1 1 (Instr.x 2),
       Instr.cond "alice_meas" 0 1 (Instr.z 2), Instr.ry (-theta) 2,
       Instr.measure [2] "bob_verif"] ∧
    qc1.cregs = [("alice_meas", 2), ("bob_verif", 1)] :=
  ⟨rfl, rfl⟩

/-- C5: the script submits the hardware job exactly once and calls the
blocking result retrieval on it exactly once; the only statements between
the submission and the result call are console prints (of the job id and a
waiting message); the result call passes no timeout; and the script contains
no loop, no job cancellation and no try/except, hence no retry, timeout,
cancellation or backpressure handling around the call. -/
theorem C5_submit_then_await :
    (script.filter PyStmt.isSubmit).length = 1 ∧
    (script.filter PyStmt.isHardwareResult).length = 1 ∧
    betweenSubmitAndResult.all PyStmt.isPrintLike = true ∧
    (afterSubmit.dropWhile (fun s => !s.isHardwareResult)).head? =
      some (PyStmt.atom (PyAtom.resultWait "job3" none)) ∧
    (script.filter PyStmt.isLoop).length = 0 ∧
    (script.filter PyStmt.isCancel).length = 0 ∧
    (script.filter PyStmt.isTry).length = 0 :=
  ⟨rfl, rfl, rfl, rfl, rfl, rfl, rfl⟩

/-- C6: the constant SHOTS (line 48) equals 4096, and the shot counts passed
at the three experiment executions (the two local sampler constructions of
lines 125 and 178 and the hardware submission of line 221) are exactly three
values, each equal to SHOTS. -/
theorem C6_shots :
    SHOTS = 4096 ∧ script.filterMap PyStmt.runShots = [SHOTS, SHOTS, SHOTS] :=
  ⟨rfl, rfl⟩

/-- C7, counterexample: the verification bit of the uncorrected protocol
reads 0 with probability one half, not one quarter. -/
theorem C7_counterexample : probQc2Verif0 ≠ 1 / 4 := by
  rw [probQc2_val]; norm_num

/-- C7, amended: on the noiseless simulator the ideal circuit's verification
register bob_verif reads 0 with probability 1, and the uncorrected circuit's
verification register bob_verif_2 reads 0 with probability 1/2 (the state is
correctly teleported only in the 00 branch, of probability 1/4, but the
verification bit also reads 0 by chance in two of the other branches). -/
theorem C7_verification_probs : probQc1Verif0 = 1 ∧ probQc2Verif0 = 1 / 2 :=
  ⟨probQc1_val, probQc2_val⟩

/-- C8: qc2 contains no classically-controlled instruction at all and,
stripped of barriers, performs exactly: state preparation on qubit 0 (whose
prepared state coincides with the state qc1 initializes), EPR-pair creation
on qubits 1 and 2, Bell measurement of qubits 0 and 1 into alice_meas_2,
inverse rotation Ry(-theta) on qubit 2, and the final verification
measurement of qubit 2 into bob_verif_2. -/
theorem C8_qc2_uncorrected :
    qc2.instrs.all (fun i => !i.isCond) = true ∧
    qc2.instrs.filter (fun i => !i.isBarrier) =
      [Instr.ry theta 0, Instr.h 1, Instr.cx 1 2, Instr.cx 0 1, Instr.h 0,
       Instr.measure [0, 1] "alice_meas_2", Instr.ry (-theta) 2,
       Instr.measure [2] "bob_verif_2"] ∧
    (fun a b c => (initial_state_vector.getD (if a then 1 else 0) 0) *
      psi000 false b c : QState) = on0 (RyGate theta) psi000 :=
  ⟨rfl, rfl, prep_eq⟩

/-- C9: the state to teleport is described by the amplitude pair
[cos(theta/2), sin(theta/2)] derived from the single angle theta = pi/3, and
the squares of its two components sum to 1. -/
theorem C9_state_normalized :
    theta = Real.pi / 3 ∧
    initial_state_vector = [Real.cos (theta / 2), Real.sin (theta / 2)] ∧
    (initial_state_vector.map (fun x => x ^ 2)).sum = 1 := by
  refine ⟨rfl, rfl, ?_⟩
  simp [initial_state_vector]

/-- C10: each histogram count of Simulations 1 and 2 is the floor of the
outcome probability times SHOTS; every such count is a non-negative integer
at most 4096; and a family of probabilities summing to 1 can produce counts
summing to strictly less than 4096. -/
theorem C10_truncated_counts (p : ℝ) (h0 : 0 ≤ p) (h1 : p ≤ 1) :
    countsInt p = ⌊p * 4096⌋ ∧ 0 ≤ countsInt p ∧ countsInt p ≤ 4096 ∧
    ∃ q1 q2 : ℝ, 0 ≤ q1 ∧ 0 ≤ q2 ∧ q1 + q2 = 1 ∧
      countsInt q1 + countsInt q2 < 4096 := by
  have hs : ((SHOTS : ℝ)) = 4096 := by norm_num [SHOTS]
  have hfloor : ∀ q : ℝ, 0 ≤ q → countsInt q = ⌊q * 4096⌋ := by
    intro q hq
    rw [countsInt, pyInt, hs, if_neg (not_lt.mpr (by positivity))]
  refine ⟨hfloor p h0, ?_, ?_, ?_⟩
  · rw [hfloor p h0]
    exact Int.floor_nonneg.mpr (by positivity)
  · rw [hfloor p h0]
    calc ⌊p * 4096⌋ ≤ ⌊(4096 : ℝ)⌋ := Int.floor_le_floor (by nlinarith)
      _ = 4096 := by norm_num
  · refine ⟨1 / 3, 2 / 3, by norm_num, by norm_num, by norm_num, ?_⟩
    have e1 : countsInt (1 / 3) = 1365 := by
      rw [hfloor (1 / 3) (by norm_num)]
      exact Int.floor_eq_iff.mpr (by norm_num)
    have e2 : countsInt (2 / 3) = 2730 := by
      rw [hfloor (2 / 3) (by norm_num)]
      exact Int.floor_eq_iff.mpr (by norm_num)
    rw [e1, e2]
    norm_num

/-- C10, witness at the probability one half. -/
theorem C10_truncated_counts_witness :
    (0 : ℝ) ≤ 1 / 2 ∧ (1 / 2 : ℝ) ≤ 1 ∧
      (countsInt (1 / 2) = ⌊(1 / 2 : ℝ) * 4096⌋ ∧ 0 ≤ countsInt (1 / 2) ∧
        countsInt (1 / 2) ≤ 4096 ∧
        ∃ q1 q2 : ℝ, 0 ≤ q1 ∧ 0 ≤ q2 ∧ q1 + q2 = 1 ∧
          countsInt q1 + countsInt q2 < 4096) :=
  ⟨by norm_num, by norm_num,
    C10_truncated_counts (1 / 2) (by norm_num) (by norm_num)⟩

end Teleport
